import Mathlib

/-
Verification of the Raspberry Pi multi-game console (main.py and
games/game1.py) against its natural-language specification.

The Python code is shallowly embedded: each relevant Python function is
translated into an executable Lean definition over explicit state records.
Wall-clock readings (time.time()) and randomness (random.randint,
random.choices, random.uniform) are modelled as explicit oracle inputs:
every call site receives its values from streams carried by an environment
record, with stream positions threaded through the computation, so that a
fixed environment corresponds to a fixed random seed and a fixed schedule
of clock readings.  Python floats are modelled as rationals, Python ints
as Int/Nat, Python dicts as association lists.
-/

/-! ## Association lists (Python dict reads and writes) -/
/-- Lookup of a key in an association list, first match wins; models
reading a Python dict entry (returns none when the key is absent). -/
def assocLookup {α : Type} : List (String × α) → String → Option α
  | [], _ => none
  | (k, v) :: rest, key => if k = key then some v else assocLookup rest key

/-- Assignment of a key in an association list: replaces the first binding
of the key when present, appends a new binding otherwise; models Python
dict item assignment, which keeps insertion order. -/
def assocSet {α : Type} : List (String × α) → String → α → List (String × α)
  | [], key, val => [(key, val)]
  | (k, v) :: rest, key, val =>
      if k = key then (k, val) :: rest else (k, v) :: assocSet rest key val

/-! ## SystemConfig._merge_config (main.py 122-130) -/
/-- JSON-like configuration values, as stored in config.json. -/
inductive JVal where
  | num (n : Int)
  | str (s : String)
  | boolean (b : Bool)
  | obj (fields : List (String × JVal))

mutual
/-- The value written for one user entry by _merge_config: when the
current result already binds the key to a dict and the user value is a
dict too, the two dicts are merged recursively; in every other case the
user value is written as it is (main.py 126-129). -/
def mergeEntry : Option JVal → JVal → JVal
  | some (JVal.obj dflds), JVal.obj uflds => JVal.obj (mergeConfig dflds uflds)
  | _, value => value
termination_by _ v => sizeOf v

/-- Embedding of SystemConfig._merge_config: the result starts as a copy
of the default dict, then every user entry is written into it in order
(main.py 122-130). -/
def mergeConfig : List (String × JVal) → List (String × JVal) → List (String × JVal)
  | result, [] => result
  | result, (key, value) :: rest =>
      mergeConfig (assocSet result key (mergeEntry (assocLookup result key) value)) rest
termination_by _ u => sizeOf u
end

/-- Default configuration of SystemConfig (main.py 71-95). -/
def defaultConfig : List (String × JVal) :=
  [ ("display", JVal.obj
      [ ("hdmi_width", JVal.num 800)
      , ("hdmi_height", JVal.num 600)
      , ("fps", JVal.num 60)
      , ("fullscreen", JVal.boolean false) ])
  , ("audio", JVal.obj
      [ ("enable_buzzer", JVal.boolean true)
      , ("volume", JVal.num 80)
      , ("startup_sound", JVal.boolean true) ])
  , ("hardware", JVal.obj
      [ ("spi_screen_enabled", JVal.boolean true)
      , ("xbox_controller_enabled", JVal.boolean true)
      , ("matrix_keypad_enabled", JVal.boolean true)
      , ("traffic_light_enabled", JVal.boolean true)
      , ("power_button_enabled", JVal.boolean true) ])
  , ("debug", JVal.obj
      [ ("log_level", JVal.str ("INFO"))
      , ("show_fps", JVal.boolean false)
      , ("hardware_monitor", JVal.boolean false) ]) ]

/-- Default fields of the display group, for the C7 witness. -/
def displayDefaults : List (String × JVal) :=
  [ ("hdmi_width", JVal.num 800)
  , ("hdmi_height", JVal.num 600)
  , ("fps", JVal.num 60)
  , ("fullscreen", JVal.boolean false) ]

/-! ## EnhancedGameConsole.initialize_hardware (main.py 254-317) -/
/-- Failed components of the hardware results dict: entries whose init
returned False (main.py 295). -/
def failedComponents (results : List Bool) : List Bool :=
  results.filter (fun b => !b)

/-- Embedding of the success/failure decision of initialize_hardware on
the attempted components: when some components failed and the failures
outnumber half of the attempted components (a float comparison in the
source), the function returns False and startup aborts; otherwise it
continues and returns True (main.py 295-301). -/
def initializeHardwareOutcome (results : List Bool) : Bool :=
  let failed := failedComponents results
  if failed.length ≠ 0 then
    if ((failed.length : ℚ) > (results.length : ℚ) / 2) then false else true
  else true

/-! ## EnhancedGameConsole state machine (main.py 53-64, 173-835) -/
/-- Console top-level states (GameState enum, main.py 53-64). -/
inductive CState where
  | startup
  | menu
  | instruction
  | gameStarting
  | game
  | gamePaused
  | gameOver
  | settings
  | shutdown
  | errState
  deriving DecidableEq

/-- One entry of the games list: id and difficulty tag (main.py 185-195);
the name, description and game class do not influence control flow. -/
structure GameDescr where
  id : Nat
  difficulty : String
  deriving DecidableEq

/-- The nine game descriptors registered at startup (main.py 185-195). -/
def gamesList : List GameDescr :=
  [ ⟨1, "Easy"⟩, ⟨2, "Medium"⟩, ⟨3, "Hard"⟩, ⟨4, "Easy"⟩, ⟨5, "Medium"⟩
  , ⟨6, "Medium"⟩, ⟨7, "Hard"⟩, ⟨8, "Hard"⟩, ⟨9, "Medium"⟩ ]

/-- Controller fields read by the console (gamepad_input.get_input used in
main.py 626-672). -/
structure PadInput where
  up_pressed : Bool
  down_pressed : Bool
  a_pressed : Bool
  b_pressed : Bool
  deriving DecidableEq

/-- Matrix keypad keys (matrix_keypad.KEY_MAP). -/
inductive Key where
  | digit (d : Nat)
  | kA
  | kB
  | kC
  | kD
  | star
  | hash
  deriving DecidableEq

/-- Console controller state: the fields of EnhancedGameConsole mutated by
the state machine (main.py 197-230).  The active game instance is
abstracted to the index of the games entry it was constructed from; only
its presence matters to the controller. -/
structure Console where
  state : CState
  current_selection : Nat
  current_game : Option Nat
  selected_game : Option Nat
  games_played : Nat
  total_score : Int
  running : Bool
  deriving DecidableEq

/-- Initial console state (main.py 197-230). -/
def initConsole : Console :=
  { state := CState.startup
  , current_selection := 0
  , current_game := none
  , selected_game := none
  , games_played := 0
  , total_score := 0
  , running := true }

/-- Keypad branch of _process_menu_input (main.py 607-623): a digit key
between 1 and 9 that does not exceed the game count selects that game and
moves to INSTRUCTION; every other key only drives lights or sounds. -/
def menuKeypadStep (c : Console) (key : Option Key) : Console :=
  match key with
  | some (Key.digit d) =>
      if 1 ≤ d ∧ d ≤ 9 ∧ d ≤ gamesList.length then
        { c with current_selection := d - 1, state := CState.instruction }
      else c
  | _ => c

/-- Controller branch of _process_menu_input (main.py 626-648): up moves
the selection one back, down one forward, both wrapping modulo the game
count; A confirms into INSTRUCTION. -/
def menuPadStep (c : Console) (p : PadInput) : Console :=
  if p.up_pressed then
    { c with current_selection :=
        (c.current_selection + gamesList.length - 1) % gamesList.length }
  else if p.down_pressed then
    { c with current_selection := (c.current_selection + 1) % gamesList.length }
  else if p.a_pressed then
    { c with state := CState.instruction }
  else c

/-- Embedding of _process_menu_input (main.py 604-648): the keypad branch
runs first, then the controller branch (both in the same call). -/
def processMenuInput (c : Console) (key : Option Key) (pad : Option PadInput) : Console :=
  let c1 := menuKeypadStep c key
  match pad with
  | some p => menuPadStep c1 p
  | none => c1

/-- Embedding of _start_game_sequence (main.py 679-685): records the
selected game data and enters GAME_STARTING. -/
def startGameSequence (c : Console) : Console :=
  { c with state := CState.gameStarting, selected_game := some c.current_selection }

/-- Embedding of _return_to_menu (main.py 687-693). -/
def returnToMenu (c : Console) : Console :=
  { c with state := CState.menu }

/-- Embedding of the input handling of _handle_instruction (main.py
650-672): keypad A starts the game-start sequence, keypad D returns to the
menu; then the controller branch runs, A starting and B returning. -/
def instructionStep (c : Console) (key : Option Key) (pad : Option PadInput) : Console :=
  let c1 :=
    match key with
    | some Key.kA => startGameSequence c
    | some Key.kD => returnToMenu c
    | _ => c
  match pad with
  | some p =>
      if p.a_pressed then startGameSequence c1
      else if p.b_pressed then returnToMenu c1
      else c1
  | none => c1

/-- Embedding of _handle_game_starting and _actually_start_game (main.py
695-738): once the countdown has elapsed, a game object is constructed
from the recorded game data; on success the console holds the new game
instance and enters GAME, on a construction exception it falls back to
MENU.  A missing selected_game would raise in the handler, which the main
loop turns into the ERROR state (main.py 511-514). -/
def handleGameStarting (c : Console) (elapsedDone constructOk : Bool) : Console :=
  if elapsedDone then
    match c.selected_game with
    | some g =>
        if constructOk then
          { c with current_game := some g, state := CState.game,
                   games_played := c.games_played + 1 }
        else { c with state := CState.menu }
    | none => { c with state := CState.errState }
  else c

/-- Status dictionary returned by the active game's update, as read by
_handle_game (main.py 746-751). -/
structure GameOutcome where
  game_over : Bool
  score : Int
  deriving DecidableEq

/-- Embedding of _handle_game (main.py 740-764): when a game is active and
its update reports game over, the console enters GAME_OVER and accumulates
the score; otherwise it keeps rendering. -/
def handleGame (c : Console) (st : GameOutcome) : Console :=
  match c.current_game with
  | some _ =>
      if st.game_over then
        { c with state := CState.gameOver, total_score := c.total_score + st.score }
      else c
  | none => c

/-- Embedding of end_current_game (main.py 944-950). -/
def endCurrentGame (c : Console) : Console :=
  if c.current_game.isSome then { c with current_game := none } else c

/-- Embedding of _handle_game_over (main.py 783-807): after three seconds
the current game is ended and the console returns to the menu. -/
def handleGameOver (c : Console) (timeUp : Bool) : Console :=
  if timeUp then { (endCurrentGame c) with state := CState.menu } else c

/-- Embedding of _handle_pause_toggle (main.py 530-541). -/
def handlePauseToggle (c : Console) : Console :=
  if c.state = CState.game then { c with state := CState.gamePaused }
  else if c.state = CState.gamePaused then { c with state := CState.game }
  else c

/-- Embedding of _handle_return_to_menu (main.py 543-551). -/
def handleReturnToMenu (c : Console) : Console :=
  if c.state = CState.game ∨ c.state = CState.gamePaused ∨ c.state = CState.instruction then
    { (if c.current_game.isSome then endCurrentGame c else c) with state := CState.menu }
  else c

/-- Embedding of the ESC branch of _handle_pygame_events (main.py
826-831). -/
def handleEscape (c : Console) : Console :=
  if c.state = CState.game then handleReturnToMenu c
  else { c with running := false }

/-- Embedding of _handle_current_state (main.py 553-570) for one main-loop
iteration: the handler of the current state runs with the inputs sampled
in that iteration.  States whose handlers do not mutate the control fields
(GAME_PAUSED, SETTINGS, SHUTDOWN, ERROR) leave the state unchanged. -/
def handleCurrentState (c : Console) (key : Option Key) (pad : Option PadInput)
    (elapsedDone constructOk : Bool) (st : GameOutcome) (timeUp : Bool) : Console :=
  match c.state with
  | CState.startup => { c with state := CState.menu }
  | CState.menu => processMenuInput c key pad
  | CState.instruction => instructionStep c key pad
  | CState.gameStarting => handleGameStarting c elapsedDone constructOk
  | CState.game => handleGame c st
  | CState.gameOver => handleGameOver c timeUp
  | _ => c

/-- External stimuli of one main-loop iteration (main.py 480-516,
518-528, 821-835): a state-handler tick with its sampled inputs, a power
button event, or the ESC key. -/
inductive Event where
  | tick (key : Option Key) (pad : Option PadInput)
         (elapsedDone constructOk : Bool) (st : GameOutcome) (timeUp : Bool)
  | powerTogglePause
  | powerReturnMenu
  | escape

/-- One transition of the console state machine. -/
def consoleStep (c : Console) : Event → Console
  | Event.tick key pad elapsedDone constructOk st timeUp =>
      handleCurrentState c key pad elapsedDone constructOk st timeUp
  | Event.powerTogglePause => handlePauseToggle c
  | Event.powerReturnMenu => handleReturnToMenu c
  | Event.escape => handleEscape c

/-- Console states reachable from startup. -/
inductive ConsoleReachable : Console → Prop where
  | init : ConsoleReachable initConsole
  | step (c : Console) (e : Event) :
      ConsoleReachable c → ConsoleReachable (consoleStep c e)

/-- The controller invariant: in GAME and GAME_PAUSED a game instance is
held, GAME_STARTING always has recorded game data, and the menu selection
indexes the games list. -/
def ConsoleInv (c : Console) : Prop :=
  ((c.state = CState.game ∨ c.state = CState.gamePaused) → c.current_game.isSome) ∧
  (c.state = CState.gameStarting → c.selected_game.isSome) ∧
  c.current_selection < gamesList.length

/-- A reachable console state sitting in GAME: startup tick, select game 1
on the keypad, confirm with keypad A, countdown elapses and the game
constructs successfully. -/
def cInGame : Console :=
  consoleStep (consoleStep (consoleStep (consoleStep initConsole
    (Event.tick none none false false ⟨false, 0⟩ false))
    (Event.tick (some (Key.digit 1)) none false false ⟨false, 0⟩ false))
    (Event.tick (some Key.kA) none false false ⟨false, 0⟩ false))
    (Event.tick none none true true ⟨false, 0⟩ false)

/-- A concrete console sitting in the MENU state with selection 0: one
startup tick from the initial state. -/
def cMenu : Console :=
  consoleStep initConsole (Event.tick none none false false ⟨false, 0⟩ false)

/-! ## Exact fractions modelling the snake game's float values -/
/-- Python float quantities of the snake game (times, speeds, intervals,
particle coordinates) are modelled as exact fractions: plain
numerator/denominator pairs, kept unreduced.  Every arithmetic operation
the game performs keeps the denominator positive; a plain structure is
used so that whole game states stay decidably comparable and concretely
evaluable. -/
structure Frac where
  num : Int
  den : Nat
  deriving DecidableEq

instance (n : Nat) : OfNat Frac n := ⟨⟨(n : Int), 1⟩⟩

instance : NatCast Frac := ⟨fun n => ⟨(n : Int), 1⟩⟩

instance : IntCast Frac := ⟨fun n => ⟨n, 1⟩⟩

instance : Neg Frac := ⟨fun a => ⟨-a.num, a.den⟩⟩

instance : Add Frac :=
  ⟨fun a b => ⟨a.num * (b.den : Int) + b.num * (a.den : Int), a.den * b.den⟩⟩

instance : Sub Frac :=
  ⟨fun a b => ⟨a.num * (b.den : Int) - b.num * (a.den : Int), a.den * b.den⟩⟩

instance : Mul Frac := ⟨fun a b => ⟨a.num * b.num, a.den * b.den⟩⟩

/-- Reciprocal; the game only ever inverts positive speeds. -/
def Frac.inv (a : Frac) : Frac :=
  if a.num < 0 then ⟨-(a.den : Int), a.num.natAbs⟩ else ⟨(a.den : Int), a.num.natAbs⟩

instance : Div Frac := ⟨fun a b => a * b.inv⟩

instance : LT Frac := ⟨fun a b => a.num * (b.den : Int) < b.num * (a.den : Int)⟩

instance : LE Frac := ⟨fun a b => a.num * (b.den : Int) ≤ b.num * (a.den : Int)⟩

instance (a b : Frac) : Decidable (a < b) :=
  inferInstanceAs (Decidable (a.num * (b.den : Int) < b.num * (a.den : Int)))

instance (a b : Frac) : Decidable (a ≤ b) :=
  inferInstanceAs (Decidable (a.num * (b.den : Int) ≤ b.num * (a.den : Int)))

instance : Max Frac := ⟨fun a b => if a ≤ b then b else a⟩

/-- Python's int() truncation toward zero. -/
def Frac.toIntTrunc (a : Frac) : Int := a.num.tdiv (a.den : Int)

/-! ## EnhancedSnakeGame (games/game1.py) -/
/-- Food kinds (games/game1.py 104-137). -/
inductive FType where
  | normal
  | golden
  | speed
  | multi
  | bonus
  | phase
  deriving DecidableEq

/-- Special food kinds drawn by random.choices (games/game1.py 148-151). -/
inductive SpecialType where
  | golden
  | speed
  | multi
  | bonus
  | phase
  deriving DecidableEq

/-- Injection of the special kinds into the food kinds. -/
def SpecialType.toFType : SpecialType → FType
  | SpecialType.golden => FType.golden
  | SpecialType.speed => FType.speed
  | SpecialType.multi => FType.multi
  | SpecialType.bonus => FType.bonus
  | SpecialType.phase => FType.phase

/-- Powerup kinds (games/game1.py 48-53). -/
inductive PType where
  | invincible
  | speedBoost
  | scoreMultiplier
  | wallPhase
  deriving DecidableEq

/-- One food dict as built by generate_food (games/game1.py 112-137):
lifetime none models float inf (normal food never expires); growth and
powerup are the optional dict keys. -/
structure Food where
  pos : Int × Int
  ftype : FType
  spawn_time : Frac
  lifetime : Option Frac
  points : Int
  growth : Option Nat
  powerup : Option PType
  deriving DecidableEq

/-- One powerup slot: the active flag and remaining timer (games/game1.py
48-53); the constant durations live in activate_powerup. -/
structure PowerupSt where
  active : Bool
  timer : Frac
  deriving DecidableEq

/-- One particle of the particle system (games/game1.py 194-206). -/
structure Particle where
  x : Frac
  y : Frac
  vx : Frac
  vy : Frac
  life : Frac
  color : Nat × Nat × Nat
  size : Frac
  deriving DecidableEq

/-- Controller fields read by the snake game's update (games/game1.py
219-251). -/
structure SnakeInput where
  up_pressed : Bool
  down_pressed : Bool
  left_pressed : Bool
  right_pressed : Bool
  a_pressed : Bool
  start_pressed : Bool
  deriving DecidableEq

/-- Values appearing in the status dict returned by update. -/
inductive RVal where
  | b (v : Bool)
  | n (v : Int)
  deriving DecidableEq

/-- Full mutable state of EnhancedSnakeGame (games/game1.py 14-102). -/
structure SnakeState where
  width : Nat
  height : Nat
  block_size : Nat
  grid_width : Nat
  grid_height : Nat
  base_speed : Frac
  speed_boost : Frac
  current_speed : Frac
  pu_invincible : PowerupSt
  pu_speed_boost : PowerupSt
  pu_score_multiplier : PowerupSt
  pu_wall_phase : PowerupSt
  particles : List Particle
  combo_count : Nat
  last_eat_time : Frac
  combo_window : Frac
  snake : List (Int × Int)
  direction : Int × Int
  foods : List Food
  special_food_timer : Frac
  special_food_interval : Frac
  score : Int
  level : Int
  game_over : Bool
  paused : Bool
  boosting : Bool
  score_multiplier : Int
  total_eaten : Nat
  last_move_time : Frac
  move_interval : Frac
  last_update_time : Option Frac
  deriving DecidableEq

/-- Oracle environment: streams supplying every random draw.  foodCand
yields the successive random.randint pairs of generate_food (reduced into
the grid), specialChoice the successive random.choices draws of
update_special_foods, partRand the successive random.uniform triples
(vx, vy, size) of create_particles. -/
structure SnakeEnv where
  foodCand : Nat → Nat × Nat
  specialChoice : Nat → SpecialType
  partRand : Nat → Frac × Frac × Frac

/-- Colors assigned to eaten-food particles (games/game1.py 330-337). -/
def foodColor : FType → Nat × Nat × Nat
  | FType.normal => (255, 0, 0)
  | FType.golden => (255, 215, 0)
  | FType.speed => (255, 100, 100)
  | FType.multi => (100, 255, 100)
  | FType.bonus => (255, 20, 147)
  | FType.phase => (255, 0, 255)

/-- The retry loop of generate_food (games/game1.py 106-111): draw random
grid cells until one is free of the snake and of existing food.  The
source retries forever; here the candidate stream is scanned with fuel,
returning the first free cell and the next stream index. -/
def findFreePos (s : SnakeState) (env : SnakeEnv) : Nat → Nat → Option ((Int × Int) × Nat)
  | _, 0 => none
  | i, fuel + 1 =>
      let c := env.foodCand i
      let pos : Int × Int := ((c.1 % s.grid_width : Nat), (c.2 % s.grid_height : Nat))
      if pos ∈ s.snake ∨ s.foods.any (fun f => f.pos = pos) then
        findFreePos s env (i + 1) fuel
      else
        some (pos, i + 1)

/-- The food dict built for a fresh food of the given kind (games/game1.py
112-137). -/
def mkFood (pos : Int × Int) (ftype : FType) (now : Frac) : Food :=
  { pos := pos
  , ftype := ftype
  , spawn_time := now
  , lifetime := if ftype = FType.normal then none else some 15
  , points :=
      match ftype with
      | FType.golden => 5
      | FType.speed => 3
      | FType.multi => 2
      | FType.bonus => 10
      | FType.phase => 4
      | FType.normal => 1
  , growth :=
      match ftype with
      | FType.golden => some 2
      | FType.normal => some 1
      | _ => none
  , powerup :=
      match ftype with
      | FType.speed => some PType.speedBoost
      | FType.multi => some PType.scoreMultiplier
      | FType.bonus => some PType.invincible
      | FType.phase => some PType.wallPhase
      | _ => none }

/-- Embedding of generate_food (games/game1.py 104-140): appends a fresh
food on a free cell drawn from the candidate stream, returning the next
stream index.  When the fuel bound finds no free cell (the source would
spin forever) the state is unchanged. -/
def generate_food (s : SnakeState) (env : SnakeEnv) (fIdx : Nat) (now : Frac)
    (ftype : FType) : SnakeState × Nat :=
  match findFreePos s env fIdx (s.grid_width * s.grid_height + 1) with
  | some (pos, i) => ({ s with foods := s.foods ++ [mkFood pos ftype now] }, i)
  | none => (s, fIdx + s.grid_width * s.grid_height + 1)

/-- Embedding of reset_game (games/game1.py 66-102), called at
construction and on restart after game over: the snake returns to a single
segment at the grid centre heading right, the food list is regenerated,
score/level/flags/powerups/particles return to their initial values, and
the move timer restarts from 1/base_speed. -/
def reset_game (s : SnakeState) (env : SnakeEnv) (fIdx : Nat) (now : Frac) :
    SnakeState × Nat :=
  let s1 := { s with
    snake := [(((s.grid_width / 2 : Nat) : Int), ((s.grid_height / 2 : Nat) : Int))]
    direction := ((1 : Int), (0 : Int))
    foods := [] }
  let g := generate_food s1 env fIdx now FType.normal
  ({ g.1 with
      special_food_timer := 0
      special_food_interval := 10
      score := 0
      level := 1
      game_over := false
      paused := false
      boosting := false
      score_multiplier := 1
      total_eaten := 0
      combo_count := 0
      pu_invincible := { active := false, timer := 0 }
      pu_speed_boost := { active := false, timer := 0 }
      pu_score_multiplier := { active := false, timer := 0 }
      pu_wall_phase := { active := false, timer := 0 }
      particles := []
      last_move_time := now
      move_interval := 1 / s.base_speed }, g.2)

/-- Construction of EnhancedSnakeGame (games/game1.py 14-64): the
constants of __init__ followed by the initial reset_game, at wall-clock
time t0, consuming the food-candidate stream from index 0. -/
def snakeInit (width height : Nat) (env : SnakeEnv) (t0 : Frac) : SnakeState × Nat :=
  let base : SnakeState :=
    { width := width
    , height := height
    , block_size := 20
    , grid_width := width / 20
    , grid_height := height / 20
    , base_speed := 8
    , speed_boost := 15
    , current_speed := 8
    , pu_invincible := { active := false, timer := 0 }
    , pu_speed_boost := { active := false, timer := 0 }
    , pu_score_multiplier := { active := false, timer := 0 }
    , pu_wall_phase := { active := false, timer := 0 }
    , particles := []
    , combo_count := 0
    , last_eat_time := 0
    , combo_window := 2
    , snake := []
    , direction := ((1 : Int), (0 : Int))
    , foods := []
    , special_food_timer := 0
    , special_food_interval := 10
    , score := 0
    , level := 1
    , game_over := false
    , paused := false
    , boosting := false
    , score_multiplier := 1
    , total_eaten := 0
    , last_move_time := t0
    , move_interval := 1 / 8
    , last_update_time := none }
  reset_game base env 0 t0

/-- One powerup slot after update_powerups' per-slot step (games/game1.py
166-170): an active timer decreases by the frame delta and deactivates
when it reaches zero. -/
def stepPowerup (p : PowerupSt) (dt : Frac) : PowerupSt :=
  if p.active then
    let t := p.timer - dt
    if t ≤ 0 then { active := false, timer := t } else { active := true, timer := t }
  else p

/-- Embedding of update_powerups (games/game1.py 164-175): every slot
ticks down, and the end effects restore the score multiplier and the
current speed when their powerups expire. -/
def update_powerups (s : SnakeState) (dt : Frac) : SnakeState :=
  let pinv := stepPowerup s.pu_invincible dt
  let pspd := stepPowerup s.pu_speed_boost dt
  let pmul := stepPowerup s.pu_score_multiplier dt
  let pwall := stepPowerup s.pu_wall_phase dt
  { s with
    pu_invincible := pinv
    pu_speed_boost := pspd
    pu_score_multiplier := pmul
    pu_wall_phase := pwall
    score_multiplier :=
      if s.pu_score_multiplier.active ∧ pmul.active = false then 1
      else s.score_multiplier
    current_speed :=
      if s.pu_speed_boost.active ∧ pspd.active = false then s.base_speed
      else s.current_speed }

/-- Embedding of activate_powerup (games/game1.py 177-192): sets the slot
active with its full duration and applies the immediate effects (triple
score multiplier, current speed 1.5 times the base speed). -/
def activate_powerup (s : SnakeState) (pt : PType) : SnakeState :=
  match pt with
  | PType.invincible => { s with pu_invincible := { active := true, timer := 5 } }
  | PType.speedBoost =>
      { s with pu_speed_boost := { active := true, timer := 3 }
             , current_speed := s.base_speed * (3 / 2) }
  | PType.scoreMultiplier =>
      { s with pu_score_multiplier := { active := true, timer := 10 }
             , score_multiplier := 3 }
  | PType.wallPhase => { s with pu_wall_phase := { active := true, timer := 8 } }

/-- Embedding of update_special_foods (games/game1.py 142-162): when the
spawn interval has elapsed a special food of the oracle-chosen kind is
generated, the timer restarts and the interval shortens with the level
(floored at 5 seconds); then expired special foods are dropped. -/
def update_special_foods (s : SnakeState) (env : SnakeEnv) (fIdx sIdx : Nat)
    (now : Frac) : SnakeState × Nat × Nat :=
  let step :=
    if s.special_food_interval ≤ now - s.special_food_timer then
      let stype := env.specialChoice sIdx
      let g := generate_food s env fIdx now stype.toFType
      (({ g.1 with
          special_food_timer := now
          special_food_interval := max 5 (10 - (s.level : Frac) * (1 / 2)) } : SnakeState),
       g.2, sIdx + 1)
    else (s, fIdx, sIdx)
  let s1 := step.1
  (({ s1 with foods := s1.foods.filter (fun f =>
        decide (f.ftype = FType.normal) ||
          (match f.lifetime with
           | some l => decide (now - f.spawn_time < l)
           | none => true)) } : SnakeState), step.2.1, step.2.2)

/-- Embedding of update_particles (games/game1.py 208-217): every particle
advances by its velocity, fades, gains downward velocity, and dead
particles are removed. -/
def update_particles (s : SnakeState) (dt : Frac) : SnakeState :=
  { s with particles :=
      (s.particles.map (fun p =>
        { p with
          x := p.x + p.vx * dt
          y := p.y + p.vy * dt
          life := p.life - dt * 2
          vy := p.vy + 100 * dt })).filter (fun p => decide (0 < p.life)) }

/-- Embedding of create_particles (games/game1.py 194-206): count new
particles at the centre of the given grid cell with oracle-supplied
velocities and sizes. -/
def create_particles (s : SnakeState) (env : SnakeEnv) (pIdx : Nat)
    (pos : Int × Int) (color : Nat × Nat × Nat) (count : Nat) : SnakeState × Nat :=
  let newParts := (List.range count).map (fun j =>
    let r := env.partRand (pIdx + j)
    ({ x := ((pos.1 * (s.block_size : Int) + (s.block_size : Int) / 2 : Int) : Frac)
     , y := ((pos.2 * (s.block_size : Int) + (s.block_size : Int) / 2 : Int) : Frac)
     , vx := r.1
     , vy := r.2.1
     , life := 1
     , color := color
     , size := r.2.2 } : Particle))
  ({ s with particles := s.particles ++ newParts }, pIdx + count)

/-- Result of one update call: the new state, the returned status dict,
and the next positions of the three oracle streams. -/
structure SnakeUpd where
  state : SnakeState
  ret : List (String × RVal)
  fIdx : Nat
  pIdx : Nat
  sIdx : Nat
  deriving DecidableEq

/-- The three-key status dict {game_over, score, paused} returned on the
early paths of update (games/game1.py 227 and 251). -/
def ret3 (s : SnakeState) : List (String × RVal) :=
  [("game_over", RVal.b s.game_over), ("score", RVal.n s.score),
   ("paused", RVal.b s.paused)]

/-- The two-key status dict {game_over, score} returned on the remaining
paths of update (games/game1.py 266, 285, 292 and 378). -/
def ret2 (s : SnakeState) : List (String × RVal) :=
  [("game_over", RVal.b s.game_over), ("score", RVal.n s.score)]

/-- Tail of update after the movement step (games/game1.py 369-378):
ensure a normal food exists, then run the special-food, powerup and
particle systems and return the two-key status. -/
def finish_update (env : SnakeEnv) (s : SnakeState) (delta now : Frac)
    (fIdx pIdx sIdx : Nat) : SnakeUpd :=
  let g := if s.foods.any (fun f => decide (f.ftype = FType.normal)) then (s, fIdx)
           else generate_food s env fIdx now FType.normal
  let u := update_special_foods g.1 env g.2 sIdx now
  let s2 := update_powerups u.1 delta
  let s3 := update_particles s2 delta
  ⟨s3, ret2 s3, u.2.1, pIdx, u.2.2⟩

/-- Combo bookkeeping of the eaten-food branch (games/game1.py 306-311). -/
def eat_combo (s0 : SnakeState) (now : Frac) : SnakeState :=
  let s1 := if now - s0.last_eat_time < s0.combo_window
            then { s0 with combo_count := s0.combo_count + 1 }
            else { s0 with combo_count := 1 }
  { s1 with last_eat_time := now }

/-- Score gain of the eaten-food branch (games/game1.py 313-317): the
int() truncation of a product of nonnegative factors, modelled by the
floor. -/
def eat_score (s : SnakeState) (f : Food) : SnakeState :=
  let total_points : Int :=
    Frac.toIntTrunc
      ((f.points : Frac) * (1 + (s.combo_count : Frac) * (1 / 2))
        * (s.score_multiplier : Frac))
  { s with score := s.score + total_points }

/-- Body growth of the eaten-food branch (games/game1.py 319-323): the
last segment is appended growth - 1 times. -/
def eat_growth (s : SnakeState) (f : Food) : SnakeState :=
  { s with snake := s.snake ++
      (match s.snake.getLast? with
       | some t => List.replicate (f.growth.getD 1 - 1) t
       | none => []) }

/-- Powerup activation of the eaten-food branch (games/game1.py 325-327). -/
def eat_powerup (s : SnakeState) (f : Food) : SnakeState :=
  match f.powerup with
  | some pt => activate_powerup s pt
  | none => s

/-- Level-up check of the eaten-food branch (games/game1.py 356-364):
every tenth food raises the level and the base speed, and refreshes the
current speed unless a speed boost is running. -/
def eat_levelup (s : SnakeState) : SnakeState :=
  if s.total_eaten % 10 = 0 then
    let sa : SnakeState := { s with level := s.level + 1, base_speed := s.base_speed + 1 }
    if sa.pu_speed_boost.active then sa
    else { sa with current_speed := sa.base_speed }
  else s

/-- The eaten-food branch of update (games/game1.py 305-364): combo
bookkeeping, score gain, body growth, powerup activation, burst of
particles, replacement normal food, food counter, and the every-tenth-food
level up, in source order. -/
def snake_eat (env : SnakeEnv) (s0 : SnakeState) (f : Food) (now : Frac)
    (fIdx pIdx : Nat) : SnakeState × Nat × Nat :=
  let s5 := eat_powerup (eat_growth (eat_score (eat_combo s0 now) f) f) f
  let cp := create_particles s5 env pIdx f.pos (foodColor f.ftype)
              (if f.ftype = FType.normal then 5 else 8)
  let g := if f.ftype = FType.normal
           then generate_food cp.1 env fIdx now FType.normal
           else (cp.1, fIdx)
  let s6 : SnakeState := { g.1 with total_eaten := g.1.total_eaten + 1 }
  (eat_levelup s6, g.2, cp.2)

/-- Setting the game over flag (games/game1.py 282 and 289). -/
def snake_die (s : SnakeState) : SnakeState := { s with game_over := true }

/-- Inserting the new head (games/game1.py 295). -/
def snake_push_head (s : SnakeState) (new_head : Int × Int) : SnakeState :=
  { s with snake := new_head :: s.snake }

/-- Removing an eaten food dict from the food list (games/game1.py
299-303): the first food at the head position is removed. -/
def snake_remove_food (s : SnakeState) (f : Food) : SnakeState :=
  { s with foods := s.foods.erase f }

/-- Removing the tail when no food was eaten (games/game1.py 366-367). -/
def snake_drop_tail (s : SnakeState) : SnakeState :=
  { s with snake := s.snake.dropLast }

/-- Self-collision check onward (games/game1.py 288-378): dying on the own
body unless invincible, otherwise the head advances and either a food is
eaten or the tail is dropped. -/
def snake_collide_phase (env : SnakeEnv) (s : SnakeState) (new_head : Int × Int)
    (delta now : Frac) (fIdx pIdx sIdx : Nat) : SnakeUpd :=
  if new_head ∈ s.snake ∧ s.pu_invincible.active = false then
    let s2 := snake_die s
    ⟨s2, ret2 s2, fIdx, pIdx, sIdx⟩
  else
    let sh := snake_push_head s new_head
    match sh.foods.find? (fun f => decide (f.pos = new_head)) with
    | some f =>
        let e := snake_eat env (snake_remove_food sh f) f now fIdx pIdx
        finish_update env e.1 delta now e.2.1 e.2.2 sIdx
    | none =>
        finish_update env (snake_drop_tail sh) delta now fIdx pIdx sIdx

/-- Writing the refreshed move interval (games/game1.py 258). -/
def snake_set_interval (s0 : SnakeState) (mi : Frac) : SnakeState :=
  { s0 with move_interval := mi }

/-- Recording the movement instant (games/game1.py 268). -/
def snake_mark_move (s : SnakeState) (now : Frac) : SnakeState :=
  { s with last_move_time := now }

/-- Movement phase of update (games/game1.py 253-378): refresh the move
interval from the current (or boosted) speed, run only the background
systems when the interval has not elapsed, otherwise advance the head with
wall wrapping in phase mode or death at the borders. -/
def snake_move_phase (env : SnakeEnv) (s0 : SnakeState) (delta now : Frac)
    (fIdx pIdx sIdx : Nat) : SnakeUpd :=
  let s := snake_set_interval s0
    (1 / (if s0.boosting then s0.speed_boost else s0.current_speed))
  if now - s.last_move_time < s.move_interval then
    let u := update_special_foods s env fIdx sIdx now
    let s2 := update_powerups u.1 delta
    let s3 := update_particles s2 delta
    ⟨s3, ret2 s3, u.2.1, pIdx, u.2.2⟩
  else
    let sm := snake_mark_move s now
    let head := sm.snake.headD ((0 : Int), (0 : Int))
    let nh0 : Int × Int := (head.1 + sm.direction.1, head.2 + sm.direction.2)
    if sm.pu_wall_phase.active then
      snake_collide_phase env sm
        (nh0.1 % (sm.grid_width : Int), nh0.2 % (sm.grid_height : Int))
        delta now fIdx pIdx sIdx
    else
      if nh0.1 < 0 ∨ (sm.grid_width : Int) ≤ nh0.1 ∨
         nh0.2 < 0 ∨ (sm.grid_height : Int) ≤ nh0.2 then
        let s2 := snake_die sm
        ⟨s2, ret2 s2, fIdx, pIdx, sIdx⟩
      else snake_collide_phase env sm nh0 delta now fIdx pIdx sIdx

/-- Direction handling of update (games/game1.py 236-243): a direction
input is honoured unless it is the exact reverse of the current
direction; the four branches are mutually exclusive in source order. -/
def snake_apply_direction (s : SnakeState) (i : SnakeInput) : SnakeState :=
  if i.up_pressed = true ∧ s.direction ≠ ((0 : Int), (1 : Int)) then
    { s with direction := ((0 : Int), (-1 : Int)) }
  else if i.down_pressed = true ∧ s.direction ≠ ((0 : Int), (-1 : Int)) then
    { s with direction := ((0 : Int), (1 : Int)) }
  else if i.left_pressed = true ∧ s.direction ≠ ((1 : Int), (0 : Int)) then
    { s with direction := ((-1 : Int), (0 : Int)) }
  else if i.right_pressed = true ∧ s.direction ≠ ((-1 : Int), (0 : Int)) then
    { s with direction := ((1 : Int), (0 : Int)) }
  else s

/-- Embedding of EnhancedSnakeGame.update (games/game1.py 219-378) at
wall-clock time now, with the controller dict (None when no controller)
and the current oracle stream positions. -/
def snake_update (env : SnakeEnv) (s : SnakeState) (fIdx pIdx sIdx : Nat)
    (inp : Option SnakeInput) (now : Frac) : SnakeUpd :=
  if s.game_over = true ∨ s.paused = true then
    if (match inp with | some i => i.start_pressed | none => false) then
      if s.game_over then
        let r := reset_game s env fIdx now
        ⟨r.1, ret3 r.1, r.2, pIdx, sIdx⟩
      else
        let s2 := { s with paused := false }
        ⟨s2, ret3 s2, fIdx, pIdx, sIdx⟩
    else ⟨s, ret3 s, fIdx, pIdx, sIdx⟩
  else
    let delta := now - ((s.last_update_time).getD now)
    let su := { s with last_update_time := some now }
    match inp with
    | some i =>
        let sd := snake_apply_direction su i
        let sb := { sd with boosting := i.a_pressed }
        if i.start_pressed then
          let s2 := { sb with paused := !sb.paused }
          ⟨s2, ret3 s2, fIdx, pIdx, sIdx⟩
        else snake_move_phase env sb delta now fIdx pIdx sIdx
    | none => snake_move_phase env su delta now fIdx pIdx sIdx

/-- Iterated update: runs update once per (input, time) pair, threading
the state and the oracle stream positions, as the console's main loop
does once per frame. -/
def snake_run (env : SnakeEnv) :
    SnakeState × Nat × Nat × Nat → List (Option SnakeInput × Frac) →
    SnakeState × Nat × Nat × Nat
  | st, [] => st
  | st, (inp, t) :: rest =>
      let u := snake_update env st.1 st.2.1 st.2.2.1 st.2.2.2 inp t
      snake_run env (u.state, u.fIdx, u.pIdx, u.sIdx) rest

/-- Demo oracle: food candidates always cell (0, 0), golden specials,
constant particle randomness. -/
def demoEnv : SnakeEnv :=
  { foodCand := fun _ => (0, 0)
  , specialChoice := fun _ => SpecialType.golden
  , partRand := fun _ => (0, 0, 2) }

/-- Snake game constructed at time 0 on the 800x600 display under the
demo oracle: a single segment at (20, 15) heading right and one normal
food at (0, 0). -/
def demoInit : SnakeState × Nat := snakeInit 800 600 demoEnv 0

/-- Oracle whose first food candidate is the cell just right of the
initial head, later candidates at (0, 0). -/
def envB : SnakeEnv :=
  { foodCand := fun i => if i = 0 then (21, 15) else (0, 0)
  , specialChoice := fun _ => SpecialType.golden
  , partRand := fun _ => (0, 0, 2) }

/-- Snake game constructed at time 0 under envB: the first normal food
sits at (21, 15), one step right of the head. -/
def snakeB : SnakeState × Nat := snakeInit 800 600 envB 0

/-- The exact reverse of a direction vector. -/
def dirOpposite (d : Int × Int) : Int × Int := (-d.1, -d.2)

/-- The four direction vectors the game ever assigns. -/
def unitDirs : List (Int × Int) := [(1, 0), (-1, 0), (0, 1), (0, -1)]

/-- A snake state that died while moving left, built from the demo
state. -/
def deadLeft : SnakeState :=
  { demoInit.1 with direction := ((-1 : Int), (0 : Int)), game_over := true }

/-- Controller dict pressing only right. -/
def inputRight : SnakeInput := ⟨false, false, false, true, false, false⟩

/-- Controller dict pressing only up. -/
def inputUp : SnakeInput := ⟨true, false, false, false, false, false⟩

/-- Controller dict pressing only A (boost). -/
def inputBoost : SnakeInput := ⟨false, false, false, false, true, false⟩

/-- Controller dict pressing only start. -/
def inputStart : SnakeInput := ⟨false, false, false, false, false, true⟩

/-- The input schedule right, right, up at times 1, 2, 3. -/
def rruInputs : List (Option SnakeInput × Frac) :=
  [(some inputRight, 1), (some inputRight, 2), (some inputUp, 3)]

/-- Controller dict with no button pressed. -/
def inputNone : SnakeInput := ⟨false, false, false, false, false, false⟩

/-- A run of the snakeB instance: one boosting idle tick at time 0. -/
def snakeB_runA : SnakeState :=
  (snake_run envB (snakeB.1, snakeB.2, 0, 0) [(some inputBoost, 0)]).1

/-- The same run of the snakeB instance one update later: after the
boosting tick, a plain update at time 1 moves the snake onto the food at
(21, 15). -/
def snakeB_runB : SnakeState :=
  (snake_run envB (snakeB.1, snakeB.2, 0, 0)
    [(some inputBoost, 0), (some inputNone, 1)]).1

theorem mergeConfig_nil (d : List (String × JVal)) : mergeConfig d [] = d := by
  simp [mergeConfig]

theorem mergeConfig_cons (d : List (String × JVal)) (k : String) (v : JVal)
    (rest : List (String × JVal)) :
    mergeConfig d ((k, v) :: rest)
      = mergeConfig (assocSet d k (mergeEntry (assocLookup d k) v)) rest := by
  simp [mergeConfig]

theorem mergeEntry_none (v : JVal) : mergeEntry none v = v := by
  simp [mergeEntry]

theorem mergeEntry_obj_obj (dflds uflds : List (String × JVal)) :
    mergeEntry (some (JVal.obj dflds)) (JVal.obj uflds)
      = JVal.obj (mergeConfig dflds uflds) := by
  simp [mergeEntry]

theorem assocLookup_assocSet {α : Type} (r : List (String × α)) (k key : String) (v : α) :
    assocLookup (assocSet r k v) key =
      if k = key then some v else assocLookup r key := by
  induction r with
  | nil => by_cases h : k = key <;> simp [assocSet, assocLookup, h]
  | cons hd tl ih =>
      obtain ⟨k0, v0⟩ := hd
      by_cases h0 : k0 = k
      · subst h0
        by_cases h : k0 = key
        · subst h
          simp [assocSet, assocLookup]
        · simp [assocSet, assocLookup, h]
      · by_cases h1 : k0 = key
        · subst h1
          have hk : ¬ (k = k0) := fun hh => h0 hh.symm
          simp [assocSet, assocLookup, h0, hk]
        · simp [assocSet, assocLookup, h0, h1, ih]

theorem lookup_none_of_not_mem_keys {α : Type} (u : List (String × α)) (key : String)
    (h : key ∉ u.map Prod.fst) : assocLookup u key = none := by
  induction u with
  | nil => simp [assocLookup]
  | cons hd tl ih =>
      obtain ⟨k, v⟩ := hd
      simp only [List.map_cons, List.mem_cons] at h
      push_neg at h
      have hk : ¬ (k = key) := fun hh => h.1 hh.symm
      simp [assocLookup, hk, ih h.2]

theorem mergeConfig_lookup_missing (u : List (String × JVal)) :
    ∀ (d : List (String × JVal)) (key : String), assocLookup u key = none →
      assocLookup (mergeConfig d u) key = assocLookup d key := by
  induction u with
  | nil => intro d key _; simp [mergeConfig_nil]
  | cons hd tl ih =>
      intro d key hu
      obtain ⟨k, v⟩ := hd
      have hk : ¬ (k = key) := by
        intro h; simp [assocLookup, h] at hu
      have htl : assocLookup tl key = none := by
        simpa [assocLookup, hk] using hu
      rw [mergeConfig_cons, ih _ key htl, assocLookup_assocSet]
      simp [hk]

theorem mergeConfig_lookup_unknown (u : List (String × JVal)) :
    ∀ (d : List (String × JVal)) (key : String) (v : JVal),
      assocLookup d key = none → (u.map Prod.fst).Nodup →
      assocLookup u key = some v →
      assocLookup (mergeConfig d u) key = some v := by
  induction u with
  | nil => intro d key v _ _ h; simp [assocLookup] at h
  | cons hd tl ih =>
      intro d key v hd0 hnd hu
      obtain ⟨k, val⟩ := hd
      simp only [List.map_cons, List.nodup_cons] at hnd
      by_cases hk : k = key
      · subst hk
        have hval : val = v := by simpa [assocLookup] using hu
        subst hval
        have htl : assocLookup tl k = none :=
          lookup_none_of_not_mem_keys tl k hnd.1
        rw [mergeConfig_cons, mergeConfig_lookup_missing tl _ k htl,
            assocLookup_assocSet]
        simp [hd0, mergeEntry_none]
      · have htl : assocLookup tl key = some v := by
          simpa [assocLookup, hk] using hu
        rw [mergeConfig_cons]
        exact ih _ key v (by rw [assocLookup_assocSet]; simp [hk, hd0]) hnd.2 htl

theorem mergeConfig_lookup_both_obj (u : List (String × JVal)) :
    ∀ (d : List (String × JVal)) (g : String) (dg ug : List (String × JVal)),
      (u.map Prod.fst).Nodup →
      assocLookup u g = some (JVal.obj ug) →
      assocLookup d g = some (JVal.obj dg) →
      assocLookup (mergeConfig d u) g = some (JVal.obj (mergeConfig dg ug)) := by
  induction u with
  | nil => intro d g dg ug _ h _; simp [assocLookup] at h
  | cons hd tl ih =>
      intro d g dg ug hnd hu hd0
      obtain ⟨k, val⟩ := hd
      simp only [List.map_cons, List.nodup_cons] at hnd
      by_cases hk : k = g
      · subst hk
        have hval : val = JVal.obj ug := by simpa [assocLookup] using hu
        subst hval
        have htl : assocLookup tl k = none :=
          lookup_none_of_not_mem_keys tl k hnd.1
        rw [mergeConfig_cons, mergeConfig_lookup_missing tl _ k htl,
            assocLookup_assocSet]
        simp [hd0, mergeEntry_obj_obj]
      · have htl : assocLookup tl g = some (JVal.obj ug) := by
          simpa [assocLookup, hk] using hu
        rw [mergeConfig_cons]
        refine ih _ g dg ug hnd.2 htl ?_
        rw [assocLookup_assocSet]
        simp [hk, hd0]

/-- C7 counterexample: merging the default config with a user config that
holds only the unknown key "bogus" yields a config in which "bogus" is
present (with the user's value), although it is absent from the defaults;
so unknown keys are not ignored by _merge_config. -/
theorem mergeConfig_keeps_unknown_key :
    assocLookup defaultConfig ("bogus") = none ∧
    assocLookup (mergeConfig defaultConfig [(("bogus"), JVal.num 1)]) ("bogus")
      = some (JVal.num 1) := by
  constructor
  · rfl
  · simp [defaultConfig, mergeConfig, mergeEntry, assocSet, assocLookup]

/-- C7 (amended): merging fills keys missing from the user config with
their default values, at the top level and inside nested groups, but a
key unknown to the defaults is not ignored: it is carried into the result
with its user value. -/
theorem mergeConfig_spec :
    (∀ (d u : List (String × JVal)) (key : String),
       assocLookup u key = none →
       assocLookup (mergeConfig d u) key = assocLookup d key) ∧
    (∀ (d u : List (String × JVal)) (key : String) (v : JVal),
       assocLookup d key = none → (u.map Prod.fst).Nodup →
       assocLookup u key = some v →
       assocLookup (mergeConfig d u) key = some v) ∧
    (∀ (d u : List (String × JVal)) (g : String) (dg ug : List (String × JVal))
       (key : String),
       (u.map Prod.fst).Nodup →
       assocLookup u g = some (JVal.obj ug) →
       assocLookup d g = some (JVal.obj dg) →
       assocLookup ug key = none →
       assocLookup (mergeConfig d u) g = some (JVal.obj (mergeConfig dg ug)) ∧
       assocLookup (mergeConfig dg ug) key = assocLookup dg key) := by
  refine ⟨fun d u key h => mergeConfig_lookup_missing u d key h,
          fun d u key v h1 h2 h3 => mergeConfig_lookup_unknown u d key v h1 h2 h3,
          ?_⟩
  intro d u g dg ug key hnd hu hd0 hug
  exact ⟨mergeConfig_lookup_both_obj u d g dg ug hnd hu hd0,
         mergeConfig_lookup_missing ug dg key hug⟩

/-- C7 witness: a user config that sets only display.fps keeps the default
audio group, and inside the merged display group the missing key
fullscreen keeps its default value. -/
theorem mergeConfig_spec_witness :
    assocLookup (mergeConfig defaultConfig
        [(("display"), JVal.obj [(("fps"), JVal.num 30)])]) ("audio")
      = assocLookup defaultConfig ("audio") ∧
    (assocLookup (mergeConfig defaultConfig
         [(("display"), JVal.obj [(("fps"), JVal.num 30)])]) ("display")
       = some (JVal.obj (mergeConfig displayDefaults [(("fps"), JVal.num 30)])) ∧
     assocLookup (mergeConfig displayDefaults [(("fps"), JVal.num 30)]) ("fullscreen")
       = assocLookup displayDefaults ("fullscreen")) := by
  refine ⟨mergeConfig_spec.1 defaultConfig
            [(("display"), JVal.obj [(("fps"), JVal.num 30)])] ("audio") rfl, ?_⟩
  exact mergeConfig_spec.2.2 defaultConfig
    [(("display"), JVal.obj [(("fps"), JVal.num 30)])] ("display")
    displayDefaults [(("fps"), JVal.num 30)] ("fullscreen")
    (by simp) rfl rfl rfl

/-- C6: initialize_hardware succeeds exactly when at most half of the
attempted hardware components failed, and aborts exactly when the failed
components are strictly more than half of the attempted ones. -/
theorem initializeHardware_majority (results : List Bool) :
    initializeHardwareOutcome results = true ↔
      2 * (failedComponents results).length ≤ results.length := by
  have hlen : (failedComponents results).length ≤ results.length := by
    simpa [failedComponents] using List.length_filter_le (fun b => !b) results
  have key : (((failedComponents results).length : ℚ) > (results.length : ℚ) / 2)
      ↔ results.length < 2 * (failedComponents results).length := by
    rw [gt_iff_lt, div_lt_iff₀ (by norm_num : (0:ℚ) < 2)]
    constructor
    · intro h
      have h' : results.length < (failedComponents results).length * 2 := by
        exact_mod_cast h
      omega
    · intro h
      have h' : results.length < (failedComponents results).length * 2 := by omega
      exact_mod_cast h'
  unfold initializeHardwareOutcome
  by_cases h0 : (failedComponents results).length = 0
  · simp [h0]
  · simp only [ne_eq, h0, not_false_iff, if_true]
    by_cases hif : (((failedComponents results).length : ℚ) > (results.length : ℚ) / 2)
    · have := key.mp hif
      simp only [hif, if_true]
      constructor
      · intro h; exact absurd h (by simp)
      · intro h; omega
    · have hle : ¬ results.length < 2 * (failedComponents results).length :=
        fun hc => hif (key.mpr hc)
      simp only [hif, if_false]
      constructor
      · intro _; omega
      · intro _; trivial

theorem gamesList_length : gamesList.length = 9 := rfl

theorem menuKeypadStep_cases (c : Console) (key : Option Key) (h : ConsoleInv c)
    (hm : c.state = CState.menu) :
    ConsoleInv (menuKeypadStep c key) ∧
      ((menuKeypadStep c key).state = CState.menu ∨
       (menuKeypadStep c key).state = CState.instruction) := by
  obtain ⟨h1, h2, h3⟩ := h
  match key with
  | none => exact ⟨⟨h1, h2, h3⟩, Or.inl hm⟩
  | some Key.kA => exact ⟨⟨h1, h2, h3⟩, Or.inl hm⟩
  | some Key.kB => exact ⟨⟨h1, h2, h3⟩, Or.inl hm⟩
  | some Key.kC => exact ⟨⟨h1, h2, h3⟩, Or.inl hm⟩
  | some Key.kD => exact ⟨⟨h1, h2, h3⟩, Or.inl hm⟩
  | some Key.star => exact ⟨⟨h1, h2, h3⟩, Or.inl hm⟩
  | some Key.hash => exact ⟨⟨h1, h2, h3⟩, Or.inl hm⟩
  | some (Key.digit d) =>
      by_cases hd : 1 ≤ d ∧ d ≤ 9 ∧ d ≤ gamesList.length
      · obtain ⟨hd1, hd9, _⟩ := hd
        constructor
        · refine ⟨?_, ?_, ?_⟩
          · intro hcontra
            rcases hcontra with hcontra | hcontra <;>
              simp [menuKeypadStep, hd1, hd9, gamesList_length] at hcontra
          · intro hcontra
            simp [menuKeypadStep, hd1, hd9, gamesList_length] at hcontra
          · show (menuKeypadStep c (some (Key.digit d))).current_selection < gamesList.length
            have : (menuKeypadStep c (some (Key.digit d))).current_selection = d - 1 := by
              simp [menuKeypadStep, hd1, hd9, gamesList_length]
            rw [this, gamesList_length]
            omega
        · right
          simp [menuKeypadStep, hd1, hd9, gamesList_length]
      · have : menuKeypadStep c (some (Key.digit d)) = c := by
          simp only [menuKeypadStep, if_neg hd]
        rw [this]
        exact ⟨⟨h1, h2, h3⟩, Or.inl hm⟩

theorem menuPadStep_inv (c : Console) (p : PadInput) (h : ConsoleInv c)
    (hst : c.state = CState.menu ∨ c.state = CState.instruction) :
    ConsoleInv (menuPadStep c p) := by
  obtain ⟨h1, h2, h3⟩ := h
  have hnotg : ¬ (c.state = CState.game ∨ c.state = CState.gamePaused) := by
    rcases hst with hst | hst <;> simp [hst]
  have hnots : ¬ c.state = CState.gameStarting := by
    rcases hst with hst | hst <;> simp [hst]
  unfold menuPadStep
  by_cases hu : p.up_pressed = true
  · simp only [hu, if_true]
    refine ⟨fun hc => absurd hc hnotg, fun hc => absurd hc hnots, ?_⟩
    show (c.current_selection + gamesList.length - 1) % gamesList.length < gamesList.length
    rw [gamesList_length]
    exact Nat.mod_lt _ (by norm_num)
  · simp only [hu, if_false]
    by_cases hdn : p.down_pressed = true
    · simp only [hdn, if_true]
      refine ⟨fun hc => absurd hc hnotg, fun hc => absurd hc hnots, ?_⟩
      show (c.current_selection + 1) % gamesList.length < gamesList.length
      rw [gamesList_length]
      exact Nat.mod_lt _ (by norm_num)
    · simp only [hdn, if_false]
      by_cases ha : p.a_pressed = true
      · simp only [ha, if_true]
        exact ⟨fun hc => by rcases hc with hc | hc <;> simp at hc,
               fun hc => by simp at hc, h3⟩
      · simp only [ha, if_false]
        exact ⟨h1, h2, h3⟩

theorem consoleInv_processMenuInput (c : Console) (key : Option Key)
    (pad : Option PadInput) (h : ConsoleInv c) (hm : c.state = CState.menu) :
    ConsoleInv (processMenuInput c key pad) := by
  obtain ⟨hk, hkst⟩ := menuKeypadStep_cases c key h hm
  unfold processMenuInput
  match pad with
  | none => exact hk
  | some p => exact menuPadStep_inv _ p hk hkst

theorem consoleInv_instructionStep (c : Console) (key : Option Key)
    (pad : Option PadInput) (h : ConsoleInv c) (hm : c.state = CState.instruction) :
    ConsoleInv (instructionStep c key pad) := by
  obtain ⟨h1, h2, h3⟩ := h
  have hbase : ∀ c' : Console, ConsoleInv c' →
      (c'.state = CState.instruction ∨ c'.state = CState.gameStarting ∨
       c'.state = CState.menu) →
      ConsoleInv (startGameSequence c') ∧ ConsoleInv (returnToMenu c') := by
    intro c' ⟨g1, g2, g3⟩ _
    constructor
    · exact ⟨fun hc => by rcases hc with hc | hc <;> simp [startGameSequence] at hc,
             fun _ => by simp [startGameSequence], g3⟩
    · exact ⟨fun hc => by rcases hc with hc | hc <;> simp [returnToMenu] at hc,
             fun hc => by simp [returnToMenu] at hc, g3⟩
  have hstep1 : ∀ c' : Console, ConsoleInv c' →
      (c'.state = CState.instruction ∨ c'.state = CState.gameStarting ∨
       c'.state = CState.menu) →
      ConsoleInv (match key with
        | some Key.kA => startGameSequence c'
        | some Key.kD => returnToMenu c'
        | _ => c') ∧
      ((match key with
        | some Key.kA => startGameSequence c'
        | some Key.kD => returnToMenu c'
        | _ => c').state = CState.instruction ∨
       (match key with
        | some Key.kA => startGameSequence c'
        | some Key.kD => returnToMenu c'
        | _ => c').state = CState.gameStarting ∨
       (match key with
        | some Key.kA => startGameSequence c'
        | some Key.kD => returnToMenu c'
        | _ => c').state = CState.menu) := by
    intro c' hc' hst'
    match key with
    | none => exact ⟨hc', hst'⟩
    | some Key.kA =>
        exact ⟨(hbase c' hc' hst').1, Or.inr (Or.inl (by simp [startGameSequence]))⟩
    | some Key.kD =>
        exact ⟨(hbase c' hc' hst').2, Or.inr (Or.inr (by simp [returnToMenu]))⟩
    | some Key.kB => exact ⟨hc', hst'⟩
    | some Key.kC => exact ⟨hc', hst'⟩
    | some (Key.digit d) => exact ⟨hc', hst'⟩
    | some Key.star => exact ⟨hc', hst'⟩
    | some Key.hash => exact ⟨hc', hst'⟩
  obtain ⟨hc1, hst1⟩ := hstep1 c ⟨h1, h2, h3⟩ (Or.inl hm)
  unfold instructionStep
  match pad with
  | none => exact hc1
  | some p =>
      by_cases ha : p.a_pressed = true
      · simp only [ha, if_true]
        exact (hbase _ hc1 hst1).1
      · simp only [ha, if_false]
        by_cases hb : p.b_pressed = true
        · simp only [hb, if_true]
          exact (hbase _ hc1 hst1).2
        · simp only [hb, if_false]
          exact hc1

theorem consoleInv_step (c : Console) (e : Event) (h : ConsoleInv c) :
    ConsoleInv (consoleStep c e) := by
  obtain ⟨h1, h2, h3⟩ := h
  cases e with
  | tick key pad elapsedDone constructOk st timeUp =>
      show ConsoleInv (handleCurrentState c key pad elapsedDone constructOk st timeUp)
      unfold handleCurrentState
      cases hst : c.state with
      | startup =>
          exact ⟨fun hc => by rcases hc with hc | hc <;> simp at hc,
                 fun hc => by simp at hc, h3⟩
      | menu => exact consoleInv_processMenuInput c key pad ⟨h1, h2, h3⟩ hst
      | instruction => exact consoleInv_instructionStep c key pad ⟨h1, h2, h3⟩ hst
      | gameStarting =>
          unfold handleGameStarting
          by_cases he : elapsedDone = true
          · simp only [he, if_true]
            obtain ⟨g, hg⟩ := Option.isSome_iff_exists.mp (h2 hst)
            rw [hg]
            by_cases hok : constructOk = true
            · simp only [hok, if_true]
              exact ⟨fun _ => by simp, fun hc => by simp at hc, h3⟩
            · simp only [hok, if_false]
              exact ⟨fun hc => by rcases hc with hc | hc <;> simp at hc,
                     fun hc => by simp at hc, h3⟩
          · simp only [he, if_false]
            exact ⟨h1, h2, h3⟩
      | game =>
          unfold handleGame
          have hg := h1 (Or.inl hst)
          obtain ⟨g, hgeq⟩ := Option.isSome_iff_exists.mp hg
          rw [hgeq]
          by_cases hov : st.game_over = true
          · simp only [hov, if_true]
            exact ⟨fun hc => by rcases hc with hc | hc <;> simp at hc,
                   fun hc => by simp at hc, h3⟩
          · simp only [hov, if_false]
            exact ⟨h1, h2, h3⟩
      | gameOver =>
          unfold handleGameOver endCurrentGame
          by_cases ht : timeUp = true
          · simp only [ht, if_true]
            by_cases hgs : c.current_game.isSome
            · simp only [hgs, if_true]
              exact ⟨fun hc => by rcases hc with hc | hc <;> simp at hc,
                     fun hc => by simp at hc, h3⟩
            · simp only [hgs, if_false]
              exact ⟨fun hc => by rcases hc with hc | hc <;> simp at hc,
                     fun hc => by simp at hc, h3⟩
          · simp only [ht, if_false]
            exact ⟨h1, h2, h3⟩
      | gamePaused => exact ⟨h1, h2, h3⟩
      | settings => exact ⟨h1, h2, h3⟩
      | shutdown => exact ⟨h1, h2, h3⟩
      | errState => exact ⟨h1, h2, h3⟩
  | powerTogglePause =>
      show ConsoleInv (handlePauseToggle c)
      unfold handlePauseToggle
      by_cases hg : c.state = CState.game
      · simp only [hg, if_true]
        exact ⟨fun _ => h1 (Or.inl hg), fun hc => by simp at hc, h3⟩
      · simp only [hg, if_false]
        by_cases hp : c.state = CState.gamePaused
        · simp only [hp, if_true]
          exact ⟨fun _ => h1 (Or.inr hp), fun hc => by simp at hc, h3⟩
        · simp only [hp, if_false]
          exact ⟨h1, h2, h3⟩
  | powerReturnMenu =>
      show ConsoleInv (handleReturnToMenu c)
      unfold handleReturnToMenu endCurrentGame
      by_cases hin : c.state = CState.game ∨ c.state = CState.gamePaused ∨
          c.state = CState.instruction
      · simp only [hin, if_true]
        by_cases hgs : c.current_game.isSome
        · simp only [hgs, if_true]
          exact ⟨fun hc => by rcases hc with hc | hc <;> simp at hc,
                 fun hc => by simp at hc, h3⟩
        · simp only [hgs, if_false]
          exact ⟨fun hc => by rcases hc with hc | hc <;> simp at hc,
                 fun hc => by simp at hc, h3⟩
      · simp only [hin, if_false]
        exact ⟨h1, h2, h3⟩
  | escape =>
      show ConsoleInv (handleEscape c)
      unfold handleEscape handleReturnToMenu endCurrentGame
      by_cases hg : c.state = CState.game
      · simp only [hg, if_true]
        simp only [true_or, if_true]
        by_cases hgs : c.current_game.isSome
        · simp only [hgs, if_true]
          exact ⟨fun hc => by rcases hc with hc | hc <;> simp at hc,
                 fun hc => by simp at hc, h3⟩
        · simp only [hgs, if_false]
          exact ⟨fun hc => by rcases hc with hc | hc <;> simp at hc,
                 fun hc => by simp at hc, h3⟩
      · simp only [hg, if_false]
        exact ⟨h1, h2, h3⟩

theorem consoleInv_reachable (c : Console) (h : ConsoleReachable c) : ConsoleInv c := by
  induction h with
  | init =>
      refine ⟨?_, ?_, ?_⟩ <;> simp [initConsole, ConsoleInv, gamesList_length]
  | step c e _ ih => exact consoleInv_step c e ih

/-- C1: in every reachable console state whose top-level state is GAME, a
game instance is held (current_game is non-null) and the current selection
indexes an entry of the games list. -/
theorem game_state_has_valid_game (c : Console) (h : ConsoleReachable c)
    (hg : c.state = CState.game) :
    c.current_game.isSome ∧ c.current_selection < gamesList.length := by
  obtain ⟨h1, _, h3⟩ := consoleInv_reachable c h
  exact ⟨h1 (Or.inl hg), h3⟩

/-- C1 witness: the invariant evaluated on a concrete reachable GAME
state. -/
theorem game_state_has_valid_game_witness :
    cInGame.current_game.isSome ∧ cInGame.current_selection < gamesList.length :=
  game_state_has_valid_game cInGame
    (ConsoleReachable.step _ _ (ConsoleReachable.step _ _ (ConsoleReachable.step _ _
      (ConsoleReachable.step _ _ ConsoleReachable.init))))
    (by decide)

/-- C2: in the MENU state a gamepad up input moves the selection to
(s + n - 1) mod n and a down input to (s + 1) mod n for n the game count;
whenever up or down fires the new selection stays below n; in particular
up from 0 gives n - 1 and down from n - 1 gives 0. -/
theorem menu_selection_wraps (c : Console) (p : PadInput)
    (elapsedDone constructOk : Bool) (st : GameOutcome) (timeUp : Bool)
    (hm : c.state = CState.menu) :
    (p.up_pressed = true →
       (consoleStep c (Event.tick none (some p) elapsedDone constructOk st
          timeUp)).current_selection
         = (c.current_selection + gamesList.length - 1) % gamesList.length) ∧
    (p.up_pressed = false → p.down_pressed = true →
       (consoleStep c (Event.tick none (some p) elapsedDone constructOk st
          timeUp)).current_selection
         = (c.current_selection + 1) % gamesList.length) ∧
    (p.up_pressed = true ∨ p.down_pressed = true →
       (consoleStep c (Event.tick none (some p) elapsedDone constructOk st
          timeUp)).current_selection < gamesList.length) ∧
    ((0 + gamesList.length - 1) % gamesList.length = gamesList.length - 1) ∧
    ((gamesList.length - 1 + 1) % gamesList.length = 0) := by
  have hstep : consoleStep c (Event.tick none (some p) elapsedDone constructOk st timeUp)
      = menuPadStep c p := by
    simp [consoleStep, handleCurrentState, hm, processMenuInput, menuKeypadStep]
  refine ⟨?_, ?_, ?_, by decide, by decide⟩
  · intro hu
    rw [hstep]
    simp [menuPadStep, hu]
  · intro hu hd
    rw [hstep]
    simp [menuPadStep, hu, hd]
  · intro hor
    rw [hstep]
    by_cases hu : p.up_pressed = true
    · simp only [menuPadStep, hu, if_true, gamesList_length]
      exact Nat.mod_lt _ (by norm_num)
    · have hd : p.down_pressed = true := by
        rcases hor with h | h
        · exact absurd h hu
        · exact h
      simp only [menuPadStep, hu, hd, if_false, if_true, gamesList_length]
      exact Nat.mod_lt _ (by norm_num)

/-- C2 witness: moving up from selection 0 in the concrete menu state
lands on (0 + 9 - 1) mod 9. -/
theorem menu_selection_wraps_witness :
    (consoleStep cMenu (Event.tick none (some ⟨true, false, false, false⟩)
       false false ⟨false, 0⟩ false)).current_selection
      = (cMenu.current_selection + gamesList.length - 1) % gamesList.length :=
  (menu_selection_wraps cMenu ⟨true, false, false, false⟩ false false
    ⟨false, 0⟩ false rfl).1 rfl

/-- C5: in MENU a keypad digit k with 1 <= k <= 9 and k within the game
count sets the selection to k - 1 and enters INSTRUCTION; in INSTRUCTION
keypad A starts the game-start sequence, keypad D returns to the menu, and
gamepad B (with A not pressed) returns to the menu. -/
theorem keypad_gamepad_mapping :
    (∀ (c : Console) (d : Nat) (elapsedDone constructOk : Bool)
       (st : GameOutcome) (timeUp : Bool),
       c.state = CState.menu → 1 ≤ d → d ≤ 9 → d ≤ gamesList.length →
       (consoleStep c (Event.tick (some (Key.digit d)) none elapsedDone
          constructOk st timeUp)).current_selection = d - 1 ∧
       (consoleStep c (Event.tick (some (Key.digit d)) none elapsedDone
          constructOk st timeUp)).state = CState.instruction) ∧
    (∀ (c : Console) (elapsedDone constructOk : Bool) (st : GameOutcome)
       (timeUp : Bool), c.state = CState.instruction →
       (consoleStep c (Event.tick (some Key.kA) none elapsedDone constructOk st
          timeUp)).state = CState.gameStarting) ∧
    (∀ (c : Console) (elapsedDone constructOk : Bool) (st : GameOutcome)
       (timeUp : Bool), c.state = CState.instruction →
       (consoleStep c (Event.tick (some Key.kD) none elapsedDone constructOk st
          timeUp)).state = CState.menu) ∧
    (∀ (c : Console) (p : PadInput) (elapsedDone constructOk : Bool)
       (st : GameOutcome) (timeUp : Bool), c.state = CState.instruction →
       p.a_pressed = false → p.b_pressed = true →
       (consoleStep c (Event.tick none (some p) elapsedDone constructOk st
          timeUp)).state = CState.menu) := by
  refine ⟨?_, ?_, ?_, ?_⟩
  · intro c d elapsedDone constructOk st timeUp hm h1 h9 hlen
    have hcond : 1 ≤ d ∧ d ≤ 9 ∧ d ≤ gamesList.length := ⟨h1, h9, hlen⟩
    constructor <;>
      simp [consoleStep, handleCurrentState, hm, processMenuInput,
            menuKeypadStep, hcond]
  · intro c elapsedDone constructOk st timeUp hi
    simp [consoleStep, handleCurrentState, hi, instructionStep, startGameSequence]
  · intro c elapsedDone constructOk st timeUp hi
    simp [consoleStep, handleCurrentState, hi, instructionStep, returnToMenu]
  · intro c p elapsedDone constructOk st timeUp hi ha hb
    simp [consoleStep, handleCurrentState, hi, instructionStep, ha, hb,
          returnToMenu]

/-- C5 witness: keypad digit 3 in the concrete menu state selects entry 2
and enters INSTRUCTION. -/
theorem keypad_gamepad_mapping_witness :
    (consoleStep cMenu (Event.tick (some (Key.digit 3)) none false false
       ⟨false, 0⟩ false)).current_selection = 3 - 1 ∧
    (consoleStep cMenu (Event.tick (some (Key.digit 3)) none false false
       ⟨false, 0⟩ false)).state = CState.instruction :=
  keypad_gamepad_mapping.1 cMenu 3 false false ⟨false, 0⟩ false rfl
    (by norm_num) (by norm_num) (by decide)

theorem Frac.le_refl (a : Frac) : a ≤ a := Int.le_refl _

theorem Frac.le_of_eq_le {a b c : Frac} (h : a = b) (hl : b ≤ c) : a ≤ c := h ▸ hl

theorem Frac.le_add_one (a : Frac) : a ≤ a + 1 := by
  show a.num * ((a.den * 1 : Nat) : Int)
      ≤ (a.num * ((1 : Nat) : Int) + (1 : Int) * ((a.den : Nat) : Int))
          * ((a.den : Nat) : Int)
  push_cast
  nlinarith [mul_self_nonneg ((a.den : Nat) : Int)]

theorem generate_food_shape (s : SnakeState) (env : SnakeEnv) (fIdx : Nat)
    (now : Frac) (ft : FType) :
    ∃ fs, (generate_food s env fIdx now ft).1 = { s with foods := fs } := by
  unfold generate_food
  cases hf : findFreePos s env fIdx (s.grid_width * s.grid_height + 1) with
  | none => exact ⟨s.foods, rfl⟩
  | some p => exact ⟨_, rfl⟩

theorem generate_food_direction (s : SnakeState) (env : SnakeEnv) (fIdx : Nat)
    (now : Frac) (ft : FType) :
    (generate_food s env fIdx now ft).1.direction = s.direction := by
  obtain ⟨fs, h⟩ := generate_food_shape s env fIdx now ft
  rw [h]

theorem generate_food_base_speed (s : SnakeState) (env : SnakeEnv) (fIdx : Nat)
    (now : Frac) (ft : FType) :
    (generate_food s env fIdx now ft).1.base_speed = s.base_speed := by
  obtain ⟨fs, h⟩ := generate_food_shape s env fIdx now ft
  rw [h]

theorem generate_food_snake (s : SnakeState) (env : SnakeEnv) (fIdx : Nat)
    (now : Frac) (ft : FType) :
    (generate_food s env fIdx now ft).1.snake = s.snake := by
  obtain ⟨fs, h⟩ := generate_food_shape s env fIdx now ft
  rw [h]

theorem update_special_foods_direction (s : SnakeState) (env : SnakeEnv)
    (fIdx sIdx : Nat) (now : Frac) :
    (update_special_foods s env fIdx sIdx now).1.direction = s.direction := by
  simp only [update_special_foods]
  split
  · simp [generate_food_direction]
  · rfl

theorem update_special_foods_base_speed (s : SnakeState) (env : SnakeEnv)
    (fIdx sIdx : Nat) (now : Frac) :
    (update_special_foods s env fIdx sIdx now).1.base_speed = s.base_speed := by
  simp only [update_special_foods]
  split
  · simp [generate_food_base_speed]
  · rfl

theorem update_powerups_direction (s : SnakeState) (dt : Frac) :
    (update_powerups s dt).direction = s.direction := rfl

theorem update_powerups_base_speed (s : SnakeState) (dt : Frac) :
    (update_powerups s dt).base_speed = s.base_speed := rfl

theorem update_particles_direction (s : SnakeState) (dt : Frac) :
    (update_particles s dt).direction = s.direction := rfl

theorem update_particles_base_speed (s : SnakeState) (dt : Frac) :
    (update_particles s dt).base_speed = s.base_speed := rfl

theorem create_particles_direction (s : SnakeState) (env : SnakeEnv) (pIdx : Nat)
    (pos : Int × Int) (color : Nat × Nat × Nat) (count : Nat) :
    (create_particles s env pIdx pos color count).1.direction = s.direction := rfl

theorem create_particles_base_speed (s : SnakeState) (env : SnakeEnv) (pIdx : Nat)
    (pos : Int × Int) (color : Nat × Nat × Nat) (count : Nat) :
    (create_particles s env pIdx pos color count).1.base_speed = s.base_speed := rfl

theorem activate_powerup_direction (s : SnakeState) (pt : PType) :
    (activate_powerup s pt).direction = s.direction := by
  cases pt <;> rfl

theorem activate_powerup_base_speed (s : SnakeState) (pt : PType) :
    (activate_powerup s pt).base_speed = s.base_speed := by
  cases pt <;> rfl

theorem eat_combo_direction (s0 : SnakeState) (now : Frac) :
    (eat_combo s0 now).direction = s0.direction := by
  simp only [eat_combo]
  split <;> rfl

theorem eat_combo_base_speed (s0 : SnakeState) (now : Frac) :
    (eat_combo s0 now).base_speed = s0.base_speed := by
  simp only [eat_combo]
  split <;> rfl

theorem eat_score_direction (s : SnakeState) (f : Food) :
    (eat_score s f).direction = s.direction := rfl

theorem eat_score_base_speed (s : SnakeState) (f : Food) :
    (eat_score s f).base_speed = s.base_speed := rfl

theorem eat_growth_direction (s : SnakeState) (f : Food) :
    (eat_growth s f).direction = s.direction := rfl

theorem eat_growth_base_speed (s : SnakeState) (f : Food) :
    (eat_growth s f).base_speed = s.base_speed := rfl

theorem eat_powerup_direction (s : SnakeState) (f : Food) :
    (eat_powerup s f).direction = s.direction := by
  cases hp : f.powerup <;> simp [eat_powerup, hp, activate_powerup_direction]

theorem eat_powerup_base_speed (s : SnakeState) (f : Food) :
    (eat_powerup s f).base_speed = s.base_speed := by
  cases hp : f.powerup <;> simp [eat_powerup, hp, activate_powerup_base_speed]

theorem eat_levelup_direction (s : SnakeState) :
    (eat_levelup s).direction = s.direction := by
  simp only [eat_levelup]
  split
  · split <;> rfl
  · rfl

theorem eat_levelup_base_speed (s : SnakeState) :
    s.base_speed ≤ (eat_levelup s).base_speed := by
  simp only [eat_levelup]
  split
  · split
    · exact Frac.le_add_one _
    · exact Frac.le_add_one _
  · exact Frac.le_refl _

theorem snake_eat_direction (env : SnakeEnv) (s0 : SnakeState) (f : Food)
    (now : Frac) (fIdx pIdx : Nat) :
    (snake_eat env s0 f now fIdx pIdx).1.direction = s0.direction := by
  simp only [snake_eat]
  show (eat_levelup _).direction = s0.direction
  rw [eat_levelup_direction]
  rw [show ∀ t : SnakeState × Nat,
        ({ t.1 with total_eaten := t.1.total_eaten + 1 } : SnakeState).direction
          = t.1.direction from fun t => rfl]
  split
  · rw [generate_food_direction, create_particles_direction, eat_powerup_direction,
        eat_growth_direction, eat_score_direction, eat_combo_direction]
  · show (create_particles _ env pIdx f.pos (foodColor f.ftype) _).1.direction
       = s0.direction
    rw [create_particles_direction, eat_powerup_direction, eat_growth_direction,
        eat_score_direction, eat_combo_direction]

theorem snake_eat_base_speed (env : SnakeEnv) (s0 : SnakeState) (f : Food)
    (now : Frac) (fIdx pIdx : Nat) :
    s0.base_speed ≤ (snake_eat env s0 f now fIdx pIdx).1.base_speed := by
  simp only [snake_eat]
  show s0.base_speed ≤ (eat_levelup _).base_speed
  refine Frac.le_of_eq_le ?_ (eat_levelup_base_speed _)
  rw [show ∀ t : SnakeState × Nat,
        ({ t.1 with total_eaten := t.1.total_eaten + 1 } : SnakeState).base_speed
          = t.1.base_speed from fun t => rfl]
  split
  · rw [generate_food_base_speed, create_particles_base_speed,
        eat_powerup_base_speed, eat_growth_base_speed, eat_score_base_speed,
        eat_combo_base_speed]
  · show s0.base_speed
       = (create_particles _ env pIdx f.pos (foodColor f.ftype) _).1.base_speed
    rw [create_particles_base_speed, eat_powerup_base_speed, eat_growth_base_speed,
        eat_score_base_speed, eat_combo_base_speed]

theorem finish_update_direction (env : SnakeEnv) (s : SnakeState) (delta now : Frac)
    (fIdx pIdx sIdx : Nat) :
    (finish_update env s delta now fIdx pIdx sIdx).state.direction = s.direction := by
  simp only [finish_update]
  split <;>
    simp [update_particles_direction, update_powerups_direction,
          update_special_foods_direction, generate_food_direction]

theorem finish_update_base_speed (env : SnakeEnv) (s : SnakeState) (delta now : Frac)
    (fIdx pIdx sIdx : Nat) :
    (finish_update env s delta now fIdx pIdx sIdx).state.base_speed = s.base_speed := by
  simp only [finish_update]
  split <;>
    simp [update_particles_base_speed, update_powerups_base_speed,
          update_special_foods_base_speed, generate_food_base_speed]

theorem snake_die_direction (s : SnakeState) :
    (snake_die s).direction = s.direction := rfl

theorem snake_die_base_speed (s : SnakeState) :
    (snake_die s).base_speed = s.base_speed := rfl

theorem snake_push_head_direction (s : SnakeState) (nh : Int × Int) :
    (snake_push_head s nh).direction = s.direction := rfl

theorem snake_push_head_base_speed (s : SnakeState) (nh : Int × Int) :
    (snake_push_head s nh).base_speed = s.base_speed := rfl

theorem snake_remove_food_direction (s : SnakeState) (f : Food) :
    (snake_remove_food s f).direction = s.direction := rfl

theorem snake_remove_food_base_speed (s : SnakeState) (f : Food) :
    (snake_remove_food s f).base_speed = s.base_speed := rfl

theorem snake_drop_tail_direction (s : SnakeState) :
    (snake_drop_tail s).direction = s.direction := rfl

theorem snake_drop_tail_base_speed (s : SnakeState) :
    (snake_drop_tail s).base_speed = s.base_speed := rfl

theorem snake_set_interval_direction (s0 : SnakeState) (mi : Frac) :
    (snake_set_interval s0 mi).direction = s0.direction := rfl

theorem snake_set_interval_base_speed (s0 : SnakeState) (mi : Frac) :
    (snake_set_interval s0 mi).base_speed = s0.base_speed := rfl

theorem snake_mark_move_direction (s : SnakeState) (now : Frac) :
    (snake_mark_move s now).direction = s.direction := rfl

theorem snake_mark_move_base_speed (s : SnakeState) (now : Frac) :
    (snake_mark_move s now).base_speed = s.base_speed := rfl

theorem snake_collide_phase_direction (env : SnakeEnv) (s : SnakeState)
    (nh : Int × Int) (delta now : Frac) (fIdx pIdx sIdx : Nat) :
    (snake_collide_phase env s nh delta now fIdx pIdx sIdx).state.direction
      = s.direction := by
  simp only [snake_collide_phase]
  split
  · rfl
  · split
    · rw [finish_update_direction, snake_eat_direction,
          snake_remove_food_direction, snake_push_head_direction]
    · rw [finish_update_direction, snake_drop_tail_direction,
          snake_push_head_direction]

theorem snake_collide_phase_base_speed (env : SnakeEnv) (s : SnakeState)
    (nh : Int × Int) (delta now : Frac) (fIdx pIdx sIdx : Nat) :
    s.base_speed ≤
      (snake_collide_phase env s nh delta now fIdx pIdx sIdx).state.base_speed := by
  simp only [snake_collide_phase]
  split
  · exact Frac.le_refl _
  · split
    · rw [finish_update_base_speed]
      refine Frac.le_of_eq_le ?_ (snake_eat_base_speed env _ _ now fIdx pIdx)
      rw [snake_remove_food_base_speed, snake_push_head_base_speed]
    · rw [finish_update_base_speed, snake_drop_tail_base_speed,
          snake_push_head_base_speed]
      exact Frac.le_refl _

theorem snake_move_phase_direction (env : SnakeEnv) (s0 : SnakeState)
    (delta now : Frac) (fIdx pIdx sIdx : Nat) :
    (snake_move_phase env s0 delta now fIdx pIdx sIdx).state.direction
      = s0.direction := by
  simp only [snake_move_phase]
  split <;>
    (split
     · rw [update_particles_direction, update_powerups_direction,
           update_special_foods_direction, snake_set_interval_direction]
     · split
       · rw [snake_collide_phase_direction, snake_mark_move_direction,
             snake_set_interval_direction]
       · split
         · rw [snake_die_direction, snake_mark_move_direction,
               snake_set_interval_direction]
         · rw [snake_collide_phase_direction, snake_mark_move_direction,
               snake_set_interval_direction])

theorem snake_move_phase_base_speed (env : SnakeEnv) (s0 : SnakeState)
    (delta now : Frac) (fIdx pIdx sIdx : Nat) :
    s0.base_speed ≤
      (snake_move_phase env s0 delta now fIdx pIdx sIdx).state.base_speed := by
  simp only [snake_move_phase]
  split <;>
    (split
     · rw [update_particles_base_speed, update_powerups_base_speed,
           update_special_foods_base_speed, snake_set_interval_base_speed]
       exact Frac.le_refl _
     · split
       · refine Frac.le_of_eq_le ?_
           (snake_collide_phase_base_speed env _ _ delta now fIdx pIdx sIdx)
         rw [snake_mark_move_base_speed, snake_set_interval_base_speed]
       · split
         · rw [snake_die_base_speed, snake_mark_move_base_speed,
               snake_set_interval_base_speed]
           exact Frac.le_refl _
         · refine Frac.le_of_eq_le ?_
             (snake_collide_phase_base_speed env _ _ delta now fIdx pIdx sIdx)
           rw [snake_mark_move_base_speed, snake_set_interval_base_speed])

theorem reset_game_base_speed (s : SnakeState) (env : SnakeEnv) (fIdx : Nat)
    (now : Frac) : (reset_game s env fIdx now).1.base_speed = s.base_speed := by
  show (generate_food _ env fIdx now FType.normal).1.base_speed = s.base_speed
  rw [generate_food_base_speed]

theorem reset_game_direction (s : SnakeState) (env : SnakeEnv) (fIdx : Nat)
    (now : Frac) :
    (reset_game s env fIdx now).1.direction = ((1 : Int), (0 : Int)) := by
  show (generate_food _ env fIdx now FType.normal).1.direction = ((1 : Int), (0 : Int))
  rw [generate_food_direction]

theorem reset_game_snake (s : SnakeState) (env : SnakeEnv) (fIdx : Nat)
    (now : Frac) :
    (reset_game s env fIdx now).1.snake
      = [(((s.grid_width / 2 : Nat) : Int), ((s.grid_height / 2 : Nat) : Int))] := by
  show (generate_food _ env fIdx now FType.normal).1.snake = _
  rw [generate_food_snake]

theorem snake_apply_direction_base_speed (s : SnakeState) (i : SnakeInput) :
    (snake_apply_direction s i).base_speed = s.base_speed := by
  simp only [snake_apply_direction]
  repeat' split
  all_goals rfl

theorem finish_update_ret (env : SnakeEnv) (s : SnakeState) (delta now : Frac)
    (fIdx pIdx sIdx : Nat) :
    (finish_update env s delta now fIdx pIdx sIdx).ret
      = ret2 (finish_update env s delta now fIdx pIdx sIdx).state := rfl

set_option maxHeartbeats 1600000 in
theorem snake_collide_phase_ret (env : SnakeEnv) (s : SnakeState)
    (nh : Int × Int) (delta now : Frac) (fIdx pIdx sIdx : Nat) :
    (snake_collide_phase env s nh delta now fIdx pIdx sIdx).ret
      = ret2 (snake_collide_phase env s nh delta now fIdx pIdx sIdx).state := by
  simp only [snake_collide_phase]
  split
  · rfl
  · split
    · exact finish_update_ret env _ delta now _ _ sIdx
    · exact finish_update_ret env _ delta now fIdx pIdx sIdx

set_option maxHeartbeats 1600000 in
theorem snake_move_phase_ret (env : SnakeEnv) (s0 : SnakeState)
    (delta now : Frac) (fIdx pIdx sIdx : Nat) :
    (snake_move_phase env s0 delta now fIdx pIdx sIdx).ret
      = ret2 (snake_move_phase env s0 delta now fIdx pIdx sIdx).state := by
  simp only [snake_move_phase]
  split <;>
    (split
     · rfl
     · split
       · exact snake_collide_phase_ret env _ _ delta now fIdx pIdx sIdx
       · split
         · rfl
         · exact snake_collide_phase_ret env _ _ delta now fIdx pIdx sIdx)

theorem snake_update_ret_shape (env : SnakeEnv) (s : SnakeState)
    (fIdx pIdx sIdx : Nat) (inp : Option SnakeInput) (now : Frac) :
    (snake_update env s fIdx pIdx sIdx inp now).ret
        = ret2 (snake_update env s fIdx pIdx sIdx inp now).state ∨
    (snake_update env s fIdx pIdx sIdx inp now).ret
        = ret3 (snake_update env s fIdx pIdx sIdx inp now).state := by
  simp only [snake_update]
  split
  · split
    · split
      · right; rfl
      · right; rfl
    · right; rfl
  · split
    · split
      · right; rfl
      · left
        exact snake_move_phase_ret env _ _ now fIdx pIdx sIdx
    · left
      exact snake_move_phase_ret env _ _ now fIdx pIdx sIdx

theorem snake_apply_direction_spec (s : SnakeState) (i : SnakeInput)
    (hdir : s.direction ∈ unitDirs) :
    (snake_apply_direction s i).direction ≠ dirOpposite s.direction ∧
    (snake_apply_direction s i).direction ∈ unitDirs := by
  simp only [unitDirs, List.mem_cons, List.not_mem_nil, or_false] at hdir
  obtain ⟨iu, idn, il, ir, ia, ist⟩ := i
  rcases hdir with hd | hd | hd | hd <;>
    cases iu <;> cases idn <;> cases il <;> cases ir <;>
      simp [snake_apply_direction, hd, dirOpposite, unitDirs]

/-- C4: on every snake game state, reset_game restores the initial game
state: score 0, level 1, game_over and paused cleared, a single-segment
snake at the grid centre (grid_width / 2, grid_height / 2), direction
(1, 0), all four powerups inactive with timer 0, and an empty particles
list. -/
theorem reset_game_restores_initial (s : SnakeState) (env : SnakeEnv)
    (fIdx : Nat) (now : Frac) :
    (reset_game s env fIdx now).1.score = 0 ∧
    (reset_game s env fIdx now).1.level = 1 ∧
    (reset_game s env fIdx now).1.game_over = false ∧
    (reset_game s env fIdx now).1.paused = false ∧
    (reset_game s env fIdx now).1.snake
      = [(((s.grid_width / 2 : Nat) : Int), ((s.grid_height / 2 : Nat) : Int))] ∧
    (reset_game s env fIdx now).1.direction = ((1 : Int), (0 : Int)) ∧
    (reset_game s env fIdx now).1.pu_invincible = { active := false, timer := 0 } ∧
    (reset_game s env fIdx now).1.pu_speed_boost = { active := false, timer := 0 } ∧
    (reset_game s env fIdx now).1.pu_score_multiplier = { active := false, timer := 0 } ∧
    (reset_game s env fIdx now).1.pu_wall_phase = { active := false, timer := 0 } ∧
    (reset_game s env fIdx now).1.particles = [] :=
  ⟨rfl, rfl, rfl, rfl, reset_game_snake s env fIdx now,
   reset_game_direction s env fIdx now, rfl, rfl, rfl, rfl, rfl⟩

/-- C3 counterexample: on the in-game path taken before the move interval
has elapsed, update returns a dict holding only game_over and score; the
key paused is absent. -/
theorem snake_update_ret_missing_paused :
    assocLookup (snake_update demoEnv demoInit.1 demoInit.2 0 0 none 0).ret
        ("paused") = none ∧
    assocLookup (snake_update demoEnv demoInit.1 demoInit.2 0 0 none 0).ret
        ("game_over") = some (RVal.b false) ∧
    assocLookup (snake_update demoEnv demoInit.1 demoInit.2 0 0 none 0).ret
        ("score") = some (RVal.n 0) := by
  decide

/-- C3 (amended): every return path of the snake game's update yields a
dict containing game_over and score; the key paused is only present on
the returns taken while the game is over or paused and on the
pause-toggle return. -/
theorem snake_update_ret_core_keys (env : SnakeEnv) (s : SnakeState)
    (fIdx pIdx sIdx : Nat) (inp : Option SnakeInput) (now : Frac) :
    assocLookup (snake_update env s fIdx pIdx sIdx inp now).ret
        ("game_over") ≠ none ∧
    assocLookup (snake_update env s fIdx pIdx sIdx inp now).ret
        ("score") ≠ none := by
  rcases snake_update_ret_shape env s fIdx pIdx sIdx inp now with h | h <;>
    rw [h] <;>
    exact ⟨by simp [ret2, ret3, assocLookup], by simp [ret2, ret3, assocLookup]⟩

/-- C8 counterexample: two reachable states of one run of the same snakeB
instance: after the boosting tick at time 0 the state has score 0 and
move interval 1/15; after the next update at time 1 eats the food at
(21, 15) with boosting released, the state has score 1 and move interval
1/8; so the strictly higher-score state of the pair has the strictly
larger move interval. -/
theorem snake_interval_not_monotone_in_score :
    (snakeB_runA.score < snakeB_runB.score) ∧
    (snakeB_runA.move_interval < snakeB_runB.move_interval) := by
  decide

/-- C8 (amended): the move interval is not ordered by the score: within
one run of one instance, a boosting low-score state can have a strictly
smaller move interval than a later higher-score unboosted state.  What is
monotone is the underlying base speed: it never decreases across any
update call, and the level-up step that runs after a food is eaten raises
it by exactly one when the food counter has reached a multiple of ten. -/
theorem snake_update_base_speed_mono (env : SnakeEnv) (s : SnakeState)
    (fIdx pIdx sIdx : Nat) (inp : Option SnakeInput) (now : Frac)
    (lv : SnakeState) :
    (s.base_speed ≤ (snake_update env s fIdx pIdx sIdx inp now).state.base_speed) ∧
    ((eat_levelup lv).base_speed =
       if lv.total_eaten % 10 = 0 then lv.base_speed + 1 else lv.base_speed) := by
  constructor
  case right =>
    simp only [eat_levelup]
    split
    · split <;> rfl
    · rfl
  simp only [snake_update]
  split
  · split
    · split
      · exact Frac.le_of_eq_le (reset_game_base_speed s env fIdx now).symm
          (Frac.le_refl _)
      · exact Frac.le_refl _
    · exact Frac.le_refl _
  · split
    · split
      · show s.base_speed
           ≤ (snake_apply_direction { s with last_update_time := some now } _).base_speed
        rw [snake_apply_direction_base_speed]
        exact Frac.le_refl _
      · refine Frac.le_of_eq_le ?_
          (snake_move_phase_base_speed env _ _ _ fIdx pIdx sIdx)
        show s.base_speed
           = (snake_apply_direction { s with last_update_time := some now } _).base_speed
        rw [snake_apply_direction_base_speed]
    · refine Frac.le_of_eq_le ?_
        (snake_move_phase_base_speed env _ _ _ fIdx pIdx sIdx)
      rfl

/-- C9: update is deterministic given a fixed input schedule and a fixed
oracle environment: equal initial states yield equal runs; concretely,
feeding right, right, up at times 1, 2, 3 from the demo initial state
puts the snake's head at grid cell (22, 14). -/
theorem snake_update_deterministic (env : SnakeEnv) (s1 s2 : SnakeState)
    (fIdx pIdx sIdx : Nat) (ins : List (Option SnakeInput × Frac))
    (h : s1 = s2) :
    snake_run env (s1, fIdx, pIdx, sIdx) ins
        = snake_run env (s2, fIdx, pIdx, sIdx) ins ∧
    (snake_run demoEnv (demoInit.1, demoInit.2, 0, 0) rruInputs).1.snake.head?
        = some ((22 : Int), (14 : Int)) := by
  constructor
  · rw [h]
  · decide

/-- C9 witness: the determinism theorem applied to the demo initial state
with the empty hypothesis discharged by rfl. -/
theorem snake_update_deterministic_witness :
    snake_run demoEnv (demoInit.1, demoInit.2, 0, 0) rruInputs
        = snake_run demoEnv (demoInit.1, demoInit.2, 0, 0) rruInputs ∧
    (snake_run demoEnv (demoInit.1, demoInit.2, 0, 0) rruInputs).1.snake.head?
        = some ((22 : Int), (14 : Int)) :=
  snake_update_deterministic demoEnv demoInit.1 demoInit.1 demoInit.2 0 0
    rruInputs rfl

/-- C10 counterexample: pressing start on a game-over state that was
moving left restarts the game through reset_game, and the new direction
(1, 0) is exactly the reverse of the direction before the call. -/
theorem snake_restart_reverses_direction :
    deadLeft.direction = ((-1 : Int), (0 : Int)) ∧
    (snake_update demoEnv deadLeft demoInit.2 0 0 (some inputStart) 0).state.direction
      = dirOpposite deadLeft.direction := by
  decide

/-- C10 (amended): while the game is live (not game over), update never
turns the snake onto the exact reverse of its current direction: a
reversing input is ignored, so for every state whose direction is one of
the four unit directions the post-update direction differs from the
reverse of the pre-update direction and stays a unit direction.  The sole
exception is the restart from a game-over state, which resets the
direction to (1, 0) regardless of the previous direction. -/
theorem snake_update_no_reverse (env : SnakeEnv) (s : SnakeState)
    (fIdx pIdx sIdx : Nat) (inp : Option SnakeInput) (now : Frac)
    (hdir : s.direction ∈ unitDirs) (hgo : s.game_over = false) :
    (snake_update env s fIdx pIdx sIdx inp now).state.direction
      ≠ dirOpposite s.direction ∧
    (snake_update env s fIdx pIdx sIdx inp now).state.direction ∈ unitDirs := by
  have hne : s.direction ≠ dirOpposite s.direction := by
    have h := hdir
    simp only [unitDirs, List.mem_cons, List.not_mem_nil, or_false] at h
    rcases h with h | h | h | h <;> rw [h] <;> decide
  simp only [snake_update]
  split
  · split
    · split
      · rename_i h2
        rw [hgo] at h2
        simp at h2
      · exact ⟨hne, hdir⟩
    · exact ⟨hne, hdir⟩
  · split
    · split
      · exact snake_apply_direction_spec _ _ hdir
      · rw [snake_move_phase_direction]
        exact snake_apply_direction_spec _ _ hdir
    · rw [snake_move_phase_direction]
      exact ⟨hne, hdir⟩

/-- C10 witness: an up input on the live demo state at time 1 leaves the
direction off the reverse of (1, 0) and among the unit directions. -/
theorem snake_update_no_reverse_witness :
    (snake_update demoEnv demoInit.1 demoInit.2 0 0 (some inputUp) 1).state.direction
      ≠ dirOpposite demoInit.1.direction ∧
    (snake_update demoEnv demoInit.1 demoInit.2 0 0 (some inputUp) 1).state.direction
      ∈ unitDirs :=
  snake_update_no_reverse demoEnv demoInit.1 demoInit.2 0 0 (some inputUp) 1
    (by decide) (by decide)
